import Mathlib

/-!
Verification of the Render-Command Synthesis & AOV-Configuration subsystem
of the Maya batch-render utility.

The Python sources are shallowly embedded:
* `model.py` (`MainModel`) becomes `ModelState` together with the pure
  state-passing functions `load_aovs_for_scene`, `save_aovs_for_scene`,
  `create_batch_file` and `updateAovJsonFiles`;
* `create_batch_file.py` (the standalone generator) becomes `standaloneArgs`;
* the on-disk world is an association list from path segments to file
  contents; a file either parses as a JSON value (`FileContent.json`) or
  holds raw bytes that do not parse as JSON (`FileContent.raw`).
-/

namespace MayaBatch

/-- JSON values as produced by Python's `json` module. -/
inductive JVal where
  | null
  | bool (b : Bool)
  | num (n : Int)
  | str (s : String)
  | arr (xs : List JVal)
  | obj (fields : List (String × JVal))
deriving Repr

/-- Content of a file on disk: either bytes that parse as the JSON value `v`,
or raw bytes (`raw s`) that do not parse as JSON (truncated writes, batch
scripts, and other non-JSON text). -/
inductive FileContent where
  | json (v : JVal)
  | raw (s : String)
deriving Repr

/-- A filesystem path, as a list of path segments under some root. -/
abbrev PathT := List String

/-- The filesystem: an association list from paths to file contents
(most recent write first). -/
structure FS where
  entries : List (PathT × FileContent)
deriving Repr

/-- Look a path up in the filesystem (`Path.exists` / reading the file). -/
def FS.get (fs : FS) (p : PathT) : Option FileContent :=
  fs.entries.lookup p

/-- Overwrite (or create) the file at `p` with content `c`. -/
def FS.set (fs : FS) (p : PathT) (c : FileContent) : FS :=
  ⟨(p, c) :: fs.entries⟩

theorem FS.get_set_same (fs : FS) (p : PathT) (c : FileContent) :
    (fs.set p c).get p = some c := by
  simp [FS.get, FS.set, List.lookup]

theorem FS.get_set_ne (fs : FS) (p q : PathT) (c : FileContent) (h : q ≠ p) :
    (fs.set p c).get q = fs.get q := by
  simp [FS.get, FS.set, List.lookup, beq_eq_false_iff_ne.mpr h]

/-! ### Python `pathlib` path handling

`Path(s).stem` for the Windows flavour used by the application: the path is
split on both separators `/` and `\`, empty and `.` components are dropped,
the final component is the `name`, and the `stem` drops the suffix after the
last interior dot (drive letters are not modelled). -/

/-- Character is a Windows path separator. -/
def isSep (c : Char) : Bool := c == '/' || c == '\\'

/-- Split a character list on path separators. -/
def splitSegs : List Char → List (List Char)
  | [] => [[]]
  | c :: cs =>
    if isSep c then [] :: splitSegs cs
    else
      match splitSegs cs with
      | [] => [[c]]
      | seg :: rest => (c :: seg) :: rest

/-- Path components in the `pathlib` sense: empty and `.` chunks dropped. -/
def pyComponents (l : List Char) : List (List Char) :=
  (splitSegs l).filter (fun seg => !seg.isEmpty && seg ≠ ['.'])

/-- `Path(s).name` over character lists: the final component, or empty. -/
def pyNameChars (l : List Char) : List Char :=
  (pyComponents l).getLastD []

/-- Index of the last `.` in a character list, if any. -/
def rfindDot : List Char → Option Nat
  | [] => none
  | c :: cs =>
    match rfindDot cs with
    | some i => some (i + 1)
    | none => if c = '.' then some 0 else none

/-- `Path(s).stem` over character lists: drop the suffix after the last dot
when that dot is interior (`0 < i < len - 1`), exactly as in `pathlib`. -/
def pyStemChars (l : List Char) : List Char :=
  let n := pyNameChars l
  match rfindDot n with
  | some i => if 0 < i ∧ i < n.length - 1 then n.take i else n
  | none => n

/-- `Path(s).stem`. -/
def pyStem (s : String) : String := ⟨pyStemChars s.data⟩

/-! ### Decimal rendering of integers (Python `str(int)` / f-string) -/

/-- Decimal digit character. -/
def digitChar (n : Nat) : Char :=
  match n with
  | 0 => '0' | 1 => '1' | 2 => '2' | 3 => '3' | 4 => '4'
  | 5 => '5' | 6 => '6' | 7 => '7' | 8 => '8' | _ => '9'

/-- Fueled digit accumulator for decimal printing. -/
def natCharsGo : Nat → Nat → List Char → List Char
  | 0, _, acc => acc
  | fuel + 1, n, acc =>
    let acc' := digitChar (n % 10) :: acc
    if n < 10 then acc' else natCharsGo fuel (n / 10) acc'

/-- Decimal rendering of a natural number. -/
def natStr (n : Nat) : String := ⟨natCharsGo (n + 1) n []⟩

/-- Decimal rendering of an integer, as Python's `str`. -/
def intStr : Int → String
  | .ofNat n => natStr n
  | .negSucc n => "-" ++ natStr (n + 1)

/-! ### Substring test (used to state flag-occurrence properties) -/

/-- Boolean: `p` occurs at the head of `l`. -/
def headMatch : List Char → List Char → Bool
  | [], _ => true
  | _ :: _, [] => false
  | p :: ps, c :: cs => p == c && headMatch ps cs

/-- Boolean: `p` occurs somewhere inside `l`. -/
def hasSubChars (p : List Char) : List Char → Bool
  | [] => headMatch p []
  | c :: cs => headMatch p (c :: cs) || hasSubChars p cs

/-- Boolean: the string `pat` occurs as a substring of `s`. -/
def hasSub (pat s : String) : Bool := hasSubChars pat.data s.data

/-! ### The GUI model (`model.py`, `MainModel`) -/

/-- Stored state of `MainModel` that the core operations touch:
the renderer executable path (with the result of `Path(...).exists()` as a
separate observation of the disk), the project path, and the project
filesystem. -/
structure ModelState where
  render_exe_path : String
  render_exe_exists : Bool
  project_path : Option PathT
  fs : FS
deriving Repr

/-- The settings dictionary assembled by the view: `settings.get(key)`
yields `none` when a key is absent. -/
structure RenderSettings where
  file_name : Option String := none
  start_frame : Option Int := none
  end_frame : Option Int := none
  width : Option Int := none
  height : Option Int := none
  camera : Option String := none
  cam_aa : Option Int := none
  diffuse : Option Int := none
  specular : Option Int := none
  transmission : Option Int := none
  sss : Option Int := none
  aov_enabled : Option Bool := none
  ray_tracing : Option Bool := none
  reflection : Option Int := none
  refraction : Option Int := none
deriving Repr

/-- Python truthiness of `settings.get("aov_enabled")`: `None` and `False`
are falsy. -/
def truthy : Option Bool → Bool
  | some true => true
  | _ => false

/-- The three mutually exclusive outcomes of the AOV-inclusion decision. -/
inductive AovOutcome where
  | disabled
  | missingFile
  | enabledPresent
deriving DecidableEq, Repr

/-- AOV-inclusion decision of `MainModel.create_batch_file`:
`if not settings.get("aov_enabled"): ... elif not aov_path.exists(): ...
else: ...`. -/
def aovOutcome (enabled present : Bool) : AovOutcome :=
  if !enabled then .disabled
  else if !present then .missingFile
  else .enabledPresent

/-- `aov_preset_relative = f"render\\json\\{scene_basename}.json"`. -/
def aovPresetRelative (stem : String) : String :=
  "render\\json\\" ++ (stem ++ ".json")

/-- The active AOV invocation line emitted in the enabled-and-present case. -/
def rsaLine : String := "    -rsa \"%PROJECT_PATH%\\%AOV_PRESET%\" ^"

/-- The `aov_command_line` computed by the three-way branch. -/
def aovCommandLine (stem : String) : AovOutcome → String
  | .disabled => "rem AOV is disabled in the UI."
  | .missingFile => "rem AOV preset file not found: " ++ aovPresetRelative stem
  | .enabledPresent => rsaLine

/-- The `aov_preset_setting_line` computed by the three-way branch. -/
def aovPresetSettingLine (stem : String) : AovOutcome → String
  | .disabled =>
    "rem " ++ ("SET AOV_PRESET=\"" ++ (aovPresetRelative stem ++ "\" (AOV disabled)"))
  | .missingFile =>
    "rem " ++ ("SET AOV_PRESET=\"" ++ (aovPresetRelative stem ++ "\" (File not found)"))
  | .enabledPresent =>
    "SET AOV_PRESET=\"" ++ (aovPresetRelative stem ++ "\"")

/-- `settings.get("file_name") or scene_basename`: `None` and `""` are falsy. -/
def resolvedFileName (fn : Option String) (stem : String) : String :=
  match fn with
  | none => stem
  | some s => if s = "" then stem else s

/-- The 65-character `=` bar used by the template's separator lines. -/
def sepBar : String := ⟨List.replicate 65 '='⟩

/-- Separator comment line of the generated batch script. -/
def sepLine : String := ":: " ++ sepBar

/-- Closing `echo` separator line of the generated batch script. -/
def echoSepLine : String := "echo " ++ sepBar

/-- Head of the batch-file template (everything before the
`aov_preset_setting_line` interpolation). -/
def headLines (exe projStr sceneRel : String) : List String :=
  [ "@echo off",
    "rem 日本語のパスやファイル名を正しく扱うためのおまじない",
    "chcp 65001 > nul",
    "",
    sepLine,
    ":: --- ▼ 設定項目 ---",
    sepLine,
    "",
    "rem Maya本体の場所",
    "SET MAYA_RENDERER=\"" ++ (exe ++ "\""),
    "",
    "rem プロジェクトとファイルのパス",
    "SET PROJECT_PATH=\"" ++ (projStr ++ "\""),
    "SET SCENE_FILE=\"" ++ (sceneRel ++ "\"") ]

/-- Middle of the batch-file template (between the two AOV interpolations). -/
def midLines (stem : String) (rs : RenderSettings) : List String :=
  [ "",
    "rem 出力設定",
    "SET OUTPUT_PATH=\"" ++ ("render\\" ++ stem ++ "\""),
    "SET FILENAME=\"" ++ (resolvedFileName rs.file_name stem ++ "\""),
    "",
    "rem レンダリング詳細設定",
    "SET RENDERER_ENGINE=arnold",
    "SET START_FRAME=" ++ intStr (rs.start_frame.getD 1),
    "SET END_FRAME=" ++ intStr (rs.end_frame.getD 1),
    "SET RESOLUTION_X=" ++ intStr (rs.width.getD 1280),
    "SET RESOLUTION_Y=" ++ intStr (rs.height.getD 720),
    "SET CAMERA=\"" ++ (rs.camera.getD "perspShape" ++ "\""),
    "",
    "",
    sepLine,
    ":: --- ▼ レンダリングコマンド本体 ---",
    sepLine,
    "",
    "echo Starting Maya Batch Render...",
    "echo Project: %PROJECT_PATH%",
    "echo Scene:   %SCENE_FILE%",
    echoSepLine,
    "",
    "%MAYA_RENDERER% ^",
    "    -r %RENDERER_ENGINE% ^",
    "    -proj %PROJECT_PATH% ^",
    "    -s %START_FRAME% -e %END_FRAME% ^",
    "    -x %RESOLUTION_X% -y %RESOLUTION_Y% ^",
    "    -cam %CAMERA% ^",
    "    -rd \"%PROJECT_PATH%\\%OUTPUT_PATH%\" ^",
    "    -im \"%FILENAME%\" ^",
    "    -ai:as " ++ (intStr (rs.cam_aa.getD 3) ++ " ^"),
    "    -ai:hs " ++ (intStr (rs.diffuse.getD 2) ++ " ^"),
    "    -ai:gs " ++ (intStr (rs.specular.getD 2) ++ " ^"),
    "    -ai:rs " ++ (intStr (rs.transmission.getD 2) ++ " ^"),
    "    -ai:bssrdfs " ++ (intStr (rs.sss.getD 2) ++ " ^") ]

/-- Tail of the batch-file template (after the `aov_command_line`
interpolation). -/
def tailLines : List String :=
  [ "    \"%PROJECT_PATH%\\%SCENE_FILE%\"",
    "",
    echoSepLine,
    "echo Render process finished.",
    "echo Press any key to exit.",
    "pause" ]

/-- The full f-string template of `MainModel.create_batch_file`, as its list
of lines (the generated text is these lines joined by newlines, with a final
trailing newline). -/
def templateLines (exe projStr scene_file : String) (rs : RenderSettings)
    (o : AovOutcome) : List String :=
  let stem := pyStem scene_file
  headLines exe projStr ("render\\" ++ scene_file)
    ++ [aovPresetSettingLine stem o]
    ++ midLines stem rs
    ++ [aovCommandLine stem o]
    ++ tailLines

/-- Windows path rendering of resolved path segments. -/
def winJoin (p : PathT) : String := String.intercalate "\\" p

/-- Path of the per-scene AOV JSON file:
`<project>/render/json/<scene-stem>.json`. -/
def aovJsonPath (proj : PathT) (scene_filename : String) : PathT :=
  proj ++ ["render", "json", pyStem scene_filename ++ ".json"]

/-- Path of the generated batch file: `<project>/render_<stem>.bat`. -/
def batPath (proj : PathT) (scene_file : String) : PathT :=
  proj ++ ["render_" ++ pyStem scene_file ++ ".bat"]

/-- Named precondition failures of `MainModel.create_batch_file`
(each is a distinct error message in the source). -/
inductive CompileError where
  | rendererUnavailable
  | projectUnset
deriving DecidableEq, Repr

/-- `MainModel.create_batch_file`: precondition checks, the AOV three-way
branch, template synthesis, and the write of the `.bat` file. Returns the
new state together with the generated script lines, or a named error with
the state untouched. -/
def create_batch_file (st : ModelState) (settings : RenderSettings)
    (scene_file : String) : Except CompileError (ModelState × List String) :=
  if st.render_exe_path = "" ∨ st.render_exe_exists = false then
    .error .rendererUnavailable
  else
    match st.project_path with
    | none => .error .projectUnset
    | some proj =>
      let present := (st.fs.get (aovJsonPath proj scene_file)).isSome
      let o := aovOutcome (truthy settings.aov_enabled) present
      let lines := templateLines st.render_exe_path (winJoin proj) scene_file settings o
      let text := String.intercalate "\n" lines ++ "\n"
      .ok ({ st with fs := st.fs.set (batPath proj scene_file) (.raw text) }, lines)

/-- Outcome of `MainModel.load_aovs_for_scene` as observed by callers. -/
inductive LoadOutcome where
  | noop
  | absent
  | corrupt
  | loaded (v : JVal)
deriving Repr

/-- Boolean: Python `len()` succeeds on the value — JSON-derived sized
values are strings, lists, and dicts; numbers, booleans and `None` raise
`TypeError`. -/
def hasLen : JVal → Bool
  | .str _ => true
  | .arr _ => true
  | .obj _ => true
  | _ => false

/-- `MainModel.load_aovs_for_scene`: early return on missing project or
empty scene name; `absent` (a log, empty selection) when the file does not
exist; otherwise, inside one `try`, `aov_data.get("aovs", [])` is read and
its `len()` is logged, so the value is passed through only when it is sized
(string, list, dict); the `except` branch — malformed JSON, a non-object
document (`.get` raises `AttributeError`), or an unsized `"aovs"` value
(`len` raises `TypeError`) — yields `corrupt` (an error, empty selection). -/
def load_aovs_for_scene (st : ModelState) (scene_filename : String) : LoadOutcome :=
  match st.project_path with
  | none => .noop
  | some proj =>
    if scene_filename = "" then .noop
    else
      match st.fs.get (aovJsonPath proj scene_filename) with
      | none => .absent
      | some (.raw _) => .corrupt
      | some (.json (.obj fields)) =>
        let v := (fields.lookup "aovs").getD (.arr [])
        if hasLen v then .loaded v else .corrupt
      | some (.json _) => .corrupt

/-- The JSON document `{"aovs": aov_list}` written by the save operation. -/
def aovDoc (aov_list : List String) : JVal :=
  .obj [("aovs", .arr (aov_list.map .str))]

/-! ### Serialized form of the AOV document (`json.dump(..., indent=4)`) -/

/-- Lowercase hexadecimal digit character. -/
def hexDigitChar (n : Nat) : Char :=
  match n with
  | 0 => '0' | 1 => '1' | 2 => '2' | 3 => '3' | 4 => '4'
  | 5 => '5' | 6 => '6' | 7 => '7' | 8 => '8' | 9 => '9'
  | 10 => 'a' | 11 => 'b' | 12 => 'c' | 13 => 'd' | 14 => 'e' | _ => 'f'

/-- Four-digit lowercase hex rendering used by `\uXXXX` escapes. -/
def hex4 (n : Nat) : String :=
  ⟨[hexDigitChar (n / 4096 % 16), hexDigitChar (n / 256 % 16),
    hexDigitChar (n / 16 % 16), hexDigitChar (n % 16)]⟩

/-- JSON string-character escaping as Python's `json.dump` (default
`ensure_ascii`; code points of the basic multilingual plane). -/
def jsonEscapeChar (c : Char) : String :=
  if c = '"' then "\\\""
  else if c = '\\' then "\\\\"
  else if c = '\n' then "\\n"
  else if c = '\t' then "\\t"
  else if c = '\x0d' then "\\r"
  else if c = '\x08' then "\\b"
  else if c = '\x0c' then "\\f"
  else if c.toNat < 32 ∨ c.toNat > 127 then "\\u" ++ hex4 c.toNat
  else ⟨[c]⟩

/-- A JSON string literal for `s`. -/
def jsonStrLit (s : String) : String :=
  "\"" ++ String.join (s.data.map jsonEscapeChar) ++ "\""

/-- The exact text `json.dump({"aovs": aov_list}, f, indent=4)` writes. -/
def dumpsAovDoc (aov_list : List String) : String :=
  match aov_list with
  | [] => "\x7b\n    \"aovs\": []\n\x7d"
  | _ =>
    "\x7b\n    \"aovs\": [\n"
      ++ String.intercalate ",\n" (aov_list.map (fun a => "        " ++ jsonStrLit a))
      ++ "\n    ]\n\x7d"

/-- Outcome of the file write attempted by the save operation: success, or
an I/O failure after `n` characters of the serialization have been written
(the file was already truncated by `open(json_path, 'w')`). -/
inductive WriteOutcome where
  | ok
  | fail (n : Nat)
deriving Repr

/-- `MainModel.save_aovs_for_scene`: early error on missing project or
empty scene name; otherwise `{"aovs": aov_list}` is dumped over the file at
`<project>/render/json/<stem>.json`, which `open(..., 'w')` first truncates
in place. On an interrupted write the file is left holding the prefix of
the serialization written so far (a strict prefix never parses as JSON; a
failure after the full text leaves the complete document). -/
def save_aovs_for_scene (st : ModelState) (scene_filename : String)
    (aov_list : List String) (w : WriteOutcome) : ModelState :=
  match st.project_path with
  | none => st
  | some proj =>
    if scene_filename = "" then st
    else
      let path := aovJsonPath proj scene_filename
      match w with
      | .ok => { st with fs := st.fs.set path (.json (aovDoc aov_list)) }
      | .fail n =>
        let t := dumpsAovDoc aov_list
        if n < t.length then { st with fs := st.fs.set path (.raw (t.take n)) }
        else { st with fs := st.fs.set path (.json (aovDoc aov_list)) }

/-- Lexicographic comparison of character lists by code point, exactly the
ordinal comparison Python applies to strings. -/
def lexLe : List Char → List Char → Bool
  | [], _ => true
  | _ :: _, [] => false
  | a :: as, b :: bs =>
    if a = b then lexLe as bs else decide (a.toNat < b.toNat)

/-- Case-sensitive ordinal string order (Python `str` comparison). -/
def strLe (a b : String) : Bool := lexLe a.data b.data

/-- Boolean: `suf` is a suffix of `s` (glob pattern `*.json` matching). -/
def endsWithStr (suf s : String) : Bool :=
  headMatch suf.data.reverse s.data.reverse

/-- `MainModel._update_aov_json_files` on a directory listing of
`render/json`: keep the `*.json` entries and sort the names
(Python `sorted`, i.e. ascending code-point lexicographic order). -/
def updateAovJsonFiles (listing : List String) : List String :=
  List.insertionSort (fun a b => strLe a b = true)
    (listing.filter (fun f => endsWithStr ".json" f))

/-! ### The standalone generator (`create_batch_file.py`) -/

/-- The `RENDER_SETTINGS` dictionary of the standalone script. -/
structure StandaloneSettings where
  start_frame : Int
  end_frame : Int
  width : Int
  height : Int
  format : String
  image_name_prefix : String
  cam_aa : Int
  diffuse : Int
  specular : Int
  transmission : Int
  sss : Int
  motion_blur : Bool
  ray_tracing : Bool
  reflection_depth : Int
  refraction_depth : Int
deriving Repr

/-- Quote a string in double quotes, as the f-strings `f'"{...}"'` do. -/
def q (s : String) : String := "\"" ++ (s ++ "\"")

/-- Zero-padded three-digit rendering used by `f"v{i+1:03d}"`. -/
def pad3 (n : Nat) : String :=
  let s := natStr n
  if s.length ≥ 3 then s
  else ⟨List.replicate (3 - s.length) '0'⟩ ++ s

/-- The version suffix: `f"v{i+1:03d}" if module_path else "default"`. -/
def versionSuffix (moduleIdx : Option Nat) : String :=
  match moduleIdx with
  | some i => "v" ++ pad3 (i + 1)
  | none => "default"

/-- `base_prefix = RENDER_SETTINGS["image_name_prefix"] or scene_basename`. -/
def imageBaseName (rs : StandaloneSettings) (stem : String) : String :=
  if StandaloneSettings.image_name_prefix rs = "" then stem
  else StandaloneSettings.image_name_prefix rs

/-- The renderer argument list built per scene by `create_batch_file` in
`create_batch_file.py` (paths are passed already resolved). -/
def standaloneArgs (rs : StandaloneSettings) (proj outdir scenePath aovPath : String)
    (stem : String) (aovExists : Bool) (moduleIdx : Option Nat) : List String :=
  ["-r", "arnold"]
    ++ ["-proj", q proj]
    ++ ["-rd", q outdir]
    ++ ["-s", intStr rs.start_frame]
    ++ ["-e", intStr rs.end_frame]
    ++ ["-x", intStr rs.width]
    ++ ["-y", intStr rs.height]
    ++ ["-im", q (imageBaseName rs stem ++ "_" ++ versionSuffix moduleIdx)]
    ++ ["-of", rs.format]
    ++ (if aovExists then ["-rsa", q aovPath] else [])
    ++ ["-ai:as", intStr rs.cam_aa]
    ++ ["-ai:hs", intStr rs.diffuse]
    ++ ["-ai:gs", intStr rs.specular]
    ++ ["-ai:rs", intStr rs.transmission]
    ++ ["-ai:bssrdfs", intStr rs.sss]
    ++ ["-ai:mben", if rs.motion_blur then "1" else "0"]
    ++ (if rs.ray_tracing then
          ["-ai:td", intStr rs.reflection_depth, "-ai:rfr", intStr rs.refraction_depth]
        else [])
    ++ [q scenePath]

/-! ### Helper lemmas -/

/-- Two strings differ when one starts with a fixed prefix the other lacks. -/
theorem ne_append_of_take (a t b : String)
    (h : List.take a.data.length b.data ≠ a.data) : b ≠ a ++ t := by
  intro he
  apply h
  rw [he, String.data_append, List.take_left]

/-- Every digit character produced by `digitChar` is a decimal digit. -/
theorem digitChar_isDigit (n : Nat) : (digitChar n).isDigit = true := by
  unfold digitChar
  split <;> decide

/-- All characters accumulated by `natCharsGo` are decimal digits. -/
theorem natCharsGo_digits :
    ∀ (fuel n : Nat) (acc : List Char), (∀ c ∈ acc, c.isDigit = true) →
      ∀ c ∈ natCharsGo fuel n acc, c.isDigit = true := by
  intro fuel
  induction fuel with
  | zero => intro n acc hacc c hc; exact hacc c hc
  | succ f ih =>
    intro n acc hacc c hc
    have hacc' : ∀ d ∈ digitChar (n % 10) :: acc, d.isDigit = true := by
      intro d hd
      rcases List.mem_cons.mp hd with h | h
      · exact h ▸ digitChar_isDigit (n % 10)
      · exact hacc d h
    unfold natCharsGo at hc
    by_cases hn : n < 10
    · rw [if_pos hn] at hc
      exact hacc' c hc
    · rw [if_neg hn] at hc
      exact ih (n / 10) _ hacc' c hc

/-- Every character of `intStr i` is a minus sign or a decimal digit. -/
theorem intStr_chars (i : Int) :
    ∀ c ∈ (intStr i).data, c = '-' ∨ c.isDigit = true := by
  intro c hc
  match i with
  | .ofNat n =>
    right
    exact natCharsGo_digits (n + 1) n [] (by intro d hd; cases hd) c hc
  | .negSucc n =>
    have : (intStr (Int.negSucc n)).data = '-' :: (natStr (n + 1)).data := by
      show (("-" : String) ++ natStr (n + 1)).data = _
      rw [String.data_append]
      rfl
    rw [this] at hc
    rcases List.mem_cons.mp hc with h | h
    · exact Or.inl h
    · right
      exact natCharsGo_digits (n + 2) (n + 1) [] (by intro d hd; cases hd) c h

/-- A rendered integer never equals a string containing a letter. -/
theorem ne_intStr_of_alpha (s : String) (i : Int)
    (h : ∃ c ∈ s.data, c ≠ '-' ∧ c.isDigit = false) : s ≠ intStr i := by
  intro he
  rcases h with ⟨c, hc, hne, hnd⟩
  rcases intStr_chars i c (he ▸ hc) with h1 | h1
  · exact hne h1
  · rw [h1] at hnd
    cases hnd

/-- Every chunk produced by `splitSegs` is free of path separators. -/
theorem splitSegs_sepFree :
    ∀ (l : List Char), ∀ seg ∈ splitSegs l, ∀ c ∈ seg, isSep c = false := by
  intro l
  induction l with
  | nil =>
    intro seg hseg c hc
    simp only [splitSegs, List.mem_singleton] at hseg
    subst hseg
    cases hc
  | cons a as ih =>
    intro seg hseg c hc
    by_cases ha : isSep a
    · rw [splitSegs, if_pos ha] at hseg
      rcases List.mem_cons.mp hseg with h | h
      · subst h; cases hc
      · exact ih seg h c hc
    · rw [splitSegs, if_neg ha] at hseg
      rcases hsplit : splitSegs as with _ | ⟨s, rest⟩
      · rw [hsplit] at hseg
        rcases List.mem_cons.mp hseg with h | h
        · subst h
          rcases List.mem_singleton.mp hc with rfl
          exact eq_false_of_ne_true (fun hh => ha hh)
        · cases h
      · rw [hsplit] at hseg
        rcases List.mem_cons.mp hseg with h | h
        · subst h
          rcases List.mem_cons.mp hc with rfl | h
          · exact eq_false_of_ne_true (fun hh => ha hh)
          · exact ih s (hsplit ▸ List.mem_cons_self s rest) c h
        · exact ih seg (hsplit ▸ List.mem_cons_of_mem s h) c hc

/-- The default-valued last element of a list is the default or a member. -/
theorem getLastD_cases {α : Type} (L : List α) (d : α) :
    L.getLastD d = d ∨ L.getLastD d ∈ L := by
  induction L generalizing d with
  | nil => exact Or.inl rfl
  | cons a as ih =>
    rcases ih a with h | h
    · right
      rw [List.getLastD_cons, h]
      exact List.mem_cons_self a as
    · right
      rw [List.getLastD_cons]
      exact List.mem_cons_of_mem a h

/-- The `pathlib` final path component contains no separator. -/
theorem pyNameChars_sepFree (l : List Char) :
    ∀ c ∈ pyNameChars l, isSep c = false := by
  intro c hc
  unfold pyNameChars at hc
  rcases getLastD_cases (pyComponents l) [] with h | h
  · rw [h] at hc; cases hc
  · have hmem : pyNameChars l ∈ splitSegs l := by
      have := (List.mem_filter.mp (by exact h)).1
      exact this
    exact splitSegs_sepFree l _ hmem c hc

/-- The `pathlib` stem contains no separator. -/
theorem pyStemChars_sepFree (l : List Char) :
    ∀ c ∈ pyStemChars l, isSep c = false := by
  intro c hc
  rcases hdot : rfindDot (pyNameChars l) with _ | i
  · simp only [pyStemChars, hdot] at hc
    exact pyNameChars_sepFree l c hc
  · simp only [pyStemChars, hdot] at hc
    by_cases hi : 0 < i ∧ i < (pyNameChars l).length - 1
    · rw [if_pos hi] at hc
      exact pyNameChars_sepFree l c (List.take_subset i _ hc)
    · rw [if_neg hi] at hc
      exact pyNameChars_sepFree l c hc

/-- The active AOV flag line is not among the template's head lines. -/
theorem rsa_not_mem_head (exe p sr : String) : rsaLine ∉ headLines exe p sr := by
  intro h
  simp only [headLines, sepLine, List.mem_cons, List.not_mem_nil, or_false] at h
  repeat' (rcases h with h | h)
  all_goals first
    | exact absurd h (by decide)
    | exact ne_append_of_take "SET MAYA_RENDERER=\"" _ _ (by decide) h
    | exact ne_append_of_take "SET PROJECT_PATH=\"" _ _ (by decide) h
    | exact ne_append_of_take "SET SCENE_FILE=\"" _ _ (by decide) h

/-- The active AOV flag line is not among the template's middle lines. -/
theorem rsa_not_mem_mid (stem : String) (rs : RenderSettings) :
    rsaLine ∉ midLines stem rs := by
  intro h
  simp only [midLines, sepLine, echoSepLine, List.mem_cons, List.not_mem_nil,
    or_false] at h
  repeat' (rcases h with h | h)
  all_goals first
    | exact absurd h (by decide)
    | exact ne_append_of_take "SET OUTPUT_PATH=\"" _ _ (by decide) h
    | exact ne_append_of_take "SET FILENAME=\"" _ _ (by decide) h
    | exact ne_append_of_take "SET START_FRAME=" _ _ (by decide) h
    | exact ne_append_of_take "SET END_FRAME=" _ _ (by decide) h
    | exact ne_append_of_take "SET RESOLUTION_X=" _ _ (by decide) h
    | exact ne_append_of_take "SET RESOLUTION_Y=" _ _ (by decide) h
    | exact ne_append_of_take "SET CAMERA=\"" _ _ (by decide) h
    | exact ne_append_of_take "    -ai:as " _ _ (by decide) h
    | exact ne_append_of_take "    -ai:hs " _ _ (by decide) h
    | exact ne_append_of_take "    -ai:gs " _ _ (by decide) h
    | exact ne_append_of_take "    -ai:rs " _ _ (by decide) h
    | exact ne_append_of_take "    -ai:bssrdfs " _ _ (by decide) h

/-- The active AOV flag line is not among the template's tail lines. -/
theorem rsa_not_mem_tail : rsaLine ∉ tailLines := by decide

/-- The `aov_preset_setting_line` is never the active AOV flag line. -/
theorem rsa_ne_preset (stem : String) (o : AovOutcome) :
    rsaLine ≠ aovPresetSettingLine stem o := by
  cases o
  · exact ne_append_of_take "rem " _ _ (by decide)
  · exact ne_append_of_take "rem " _ _ (by decide)
  · exact ne_append_of_take "SET AOV_PRESET=\"" _ _ (by decide)

/-- Number of active AOV flag lines contributed by the `aov_command_line`. -/
theorem count_rsa_cmd (stem : String) (o : AovOutcome) :
    List.count rsaLine [aovCommandLine stem o] =
      if o = .enabledPresent then 1 else 0 := by
  cases o
  · simp only [aovCommandLine]
    decide
  · rw [if_neg (by decide), List.count_eq_zero]
    intro h
    exact ne_append_of_take "rem AOV preset file not found: " _ _ (by decide)
      (List.mem_singleton.mp h)
  · simp only [aovCommandLine]
    decide

/-- The generated script holds exactly one active AOV flag line in the
enabled-and-present outcome and none otherwise. -/
theorem count_rsa_template (exe p scene : String) (rs : RenderSettings)
    (o : AovOutcome) :
    List.count rsaLine (templateLines exe p scene rs o) =
      if o = .enabledPresent then 1 else 0 := by
  unfold templateLines
  rw [List.count_append, List.count_append, List.count_append, List.count_append]
  rw [List.count_eq_zero.mpr (rsa_not_mem_head exe p _)]
  rw [List.count_eq_zero.mpr (rsa_not_mem_mid _ rs)]
  rw [List.count_eq_zero.mpr rsa_not_mem_tail]
  rw [List.count_eq_zero.mpr (fun hmem =>
    rsa_ne_preset (pyStem scene) o (List.mem_singleton.mp hmem))]
  rw [count_rsa_cmd]
  omega

/-- String values of a JSON array, when every element is a string. -/
def namesOf : List JVal → Option (List String)
  | [] => some []
  | .str s :: rest => (namesOf rest).map (s :: ·)
  | _ => none

/-- Names of an emitted selection, when it is an array of strings. -/
def selectionNames : JVal → Option (List String)
  | .arr xs => namesOf xs
  | _ => none

/-- Mapped string values always read back as the original name list. -/
theorem selectionNames_map_str (S : List String) :
    selectionNames (.arr (S.map .str)) = some S := by
  induction S with
  | nil => rfl
  | cons a as ih =>
    simp only [selectionNames] at ih ⊢
    simp [namesOf, ih]

/-! ### Concrete fixtures used by witnesses and counterexamples -/

/-- Example project state with an AOV JSON file configured for `shot010`. -/
def exampleState : ModelState :=
  { render_exe_path := "C:/Program Files/Autodesk/Maya2025/bin/Render.exe"
    render_exe_exists := true
    project_path := some ["C:", "proj"]
    fs := ⟨[(["C:", "proj", "render", "json", "shot010.json"],
             .json (aovDoc ["beauty", "N"]))]⟩ }

/-- State whose renderer executable is unknown. -/
def noExeState : ModelState :=
  { render_exe_path := "", render_exe_exists := false
    project_path := some ["P"], fs := ⟨[]⟩ }

/-- State with a renderer but no project selected. -/
def noProjState : ModelState :=
  { render_exe_path := "C:/maya/Render.exe", render_exe_exists := true
    project_path := none, fs := ⟨[]⟩ }

/-! ### Claim theorems -/

/-- C1: the AOV-inclusion decision of batch-script compilation is a total
three-way branch on (use-AOV flag, AOV-file existence); the Disabled and
Missing-file outcomes put no active `-rsa` flag line in the script, and the
Enabled-and-present outcome puts exactly one, together with the
`SET AOV_PRESET` assignment referencing `render\json\<stem>.json` under
`%PROJECT_PATH%`. -/
theorem c1_aov_three_way_branch (st : ModelState) (settings : RenderSettings)
    (scene_file : String) (proj : PathT)
    (hexe : st.render_exe_path ≠ "") (hx : st.render_exe_exists = true)
    (hp : st.project_path = some proj) :
    ∃ st' lines,
      create_batch_file st settings scene_file = .ok (st', lines) ∧
      lines = templateLines st.render_exe_path (winJoin proj) scene_file settings
        (aovOutcome (truthy settings.aov_enabled)
          ((st.fs.get (aovJsonPath proj scene_file)).isSome)) ∧
      (∀ e p : Bool,
        (aovOutcome e p = .disabled ↔ e = false) ∧
        (aovOutcome e p = .missingFile ↔ e = true ∧ p = false) ∧
        (aovOutcome e p = .enabledPresent ↔ e = true ∧ p = true)) ∧
      List.count rsaLine lines =
        (if aovOutcome (truthy settings.aov_enabled)
            ((st.fs.get (aovJsonPath proj scene_file)).isSome) = .enabledPresent
         then 1 else 0) ∧
      aovPresetSettingLine (pyStem scene_file) .enabledPresent =
        "SET AOV_PRESET=\"" ++ (("render\\json\\" ++ (pyStem scene_file ++ ".json")) ++ "\"") ∧
      (aovOutcome (truthy settings.aov_enabled)
          ((st.fs.get (aovJsonPath proj scene_file)).isSome) = .enabledPresent →
        aovPresetSettingLine (pyStem scene_file) .enabledPresent ∈ lines) := by
  have hcond : ¬(st.render_exe_path = "" ∨ st.render_exe_exists = false) := by
    simp [hexe, hx]
  unfold create_batch_file
  rw [if_neg hcond, hp]
  refine ⟨_, _, rfl, rfl, by decide, count_rsa_template _ _ _ _ _, rfl, ?_⟩
  intro ho
  rw [ho]
  simp [templateLines, List.mem_append]

/-- Witness for C1: on a concrete project with the preset present and the
flag on, compilation succeeds and the script holds exactly one `-rsa` line. -/
theorem c1_witness :
    ∃ st' lines,
      create_batch_file exampleState { aov_enabled := some true } "shot010.ma"
        = .ok (st', lines) ∧
      List.count rsaLine lines = 1 := by
  obtain ⟨st', lines, h1, h2, h3, h4, h5, h6⟩ :=
    c1_aov_three_way_branch exampleState { aov_enabled := some true } "shot010.ma"
      ["C:", "proj"] (by decide) rfl rfl
  refine ⟨st', lines, h1, ?_⟩
  rw [h4]
  decide

/-- C2: compilation fails fast with a distinct named error — and no script
and no state change — when the renderer executable is unknown or absent or
when the project is unset; otherwise it proceeds to a compiled script. -/
theorem c2_precondition_failures (st : ModelState) (settings : RenderSettings)
    (scene_file : String) :
    (st.render_exe_path = "" ∨ st.render_exe_exists = false →
      create_batch_file st settings scene_file = .error .rendererUnavailable) ∧
    (st.render_exe_path ≠ "" → st.render_exe_exists = true → st.project_path = none →
      create_batch_file st settings scene_file = .error .projectUnset) ∧
    (∀ proj, st.render_exe_path ≠ "" → st.render_exe_exists = true →
      st.project_path = some proj →
      ∃ st' lines, create_batch_file st settings scene_file = .ok (st', lines)) ∧
    CompileError.rendererUnavailable ≠ CompileError.projectUnset := by
  refine ⟨?_, ?_, ?_, by decide⟩
  · intro h
    unfold create_batch_file
    rw [if_pos h]
  · intro hexe hx hnone
    unfold create_batch_file
    rw [if_neg (by simp [hexe, hx]), hnone]
  · intro proj hexe hx hp
    unfold create_batch_file
    rw [if_neg (by simp [hexe, hx]), hp]
    exact ⟨_, _, rfl⟩

/-- Witness for C2: the three precondition situations at concrete states. -/
theorem c2_witness :
    create_batch_file noExeState {} "shot.ma" = .error .rendererUnavailable ∧
    create_batch_file noProjState {} "shot.ma" = .error .projectUnset ∧
    ∃ st' lines, create_batch_file exampleState {} "shot010.ma" = .ok (st', lines) :=
  ⟨(c2_precondition_failures noExeState {} "shot.ma").1 (Or.inl rfl),
   (c2_precondition_failures noProjState {} "shot.ma").2.1 (by decide) rfl rfl,
   (c2_precondition_failures exampleState {} "shot010.ma").2.2.1 ["C:", "proj"]
     (by decide) rfl rfl⟩

/-- C3: saving an AOV name list for a scene and immediately loading the same
scene returns exactly the same names (hence the same set of names). -/
theorem c3_save_load_roundtrip (st : ModelState) (proj : PathT)
    (scene_filename : String) (S : List String)
    (hp : st.project_path = some proj) (hs : scene_filename ≠ "") :
    load_aovs_for_scene (save_aovs_for_scene st scene_filename S .ok) scene_filename
      = .loaded (.arr (S.map .str)) ∧
    selectionNames (.arr (S.map .str)) = some S := by
  obtain ⟨exe, exex, pp, fs⟩ := st
  simp only [ModelState.project_path] at hp
  subst hp
  refine ⟨?_, selectionNames_map_str S⟩
  simp [save_aovs_for_scene, load_aovs_for_scene, hs, FS.get_set_same,
    aovDoc, List.lookup, hasLen]

/-- Witness for C3 at a concrete scene and name list. -/
theorem c3_witness :
    load_aovs_for_scene
        (save_aovs_for_scene exampleState "shot020.ma" ["beauty", "Z"] .ok)
        "shot020.ma"
      = .loaded (.arr [.str "beauty", .str "Z"]) ∧
    selectionNames (.arr [.str "beauty", .str "Z"]) = some ["beauty", "Z"] :=
  c3_save_load_roundtrip exampleState ["C:", "proj"] "shot020.ma" ["beauty", "Z"]
    rfl (by decide)

/-- Boolean: the JSON value is an object. -/
def isObj : JVal → Bool
  | .obj _ => true
  | _ => false

/-- Boolean: the load outcome is the corrupt-file error condition. -/
def isCorrupt : LoadOutcome → Bool
  | .corrupt => true
  | _ => false

/-- Boolean: the JSON value is the empty selection `[]`. -/
def isEmptySelection : JVal → Bool
  | .arr [] => true
  | _ => false

/-- Boolean: the file content parses as a JSON document. -/
def isJsonDoc : FileContent → Bool
  | .json _ => true
  | .raw _ => false

/-- State whose AOV file for `shot010` holds `{"aovs": "not-a-list"}`. -/
def wrongTypedState : ModelState :=
  { render_exe_path := "", render_exe_exists := false
    project_path := some ["P"]
    fs := ⟨[(["P", "render", "json", "shot010.json"],
             .json (.obj [("aovs", .str "not-a-list")]))]⟩ }

/-- Counterexample to C4: on a file holding `{"aovs": "not-a-list"}` the load
operation reports no corrupt-file error and does not return an empty
selection — it passes the wrong-typed value through unvalidated. -/
theorem c4_counterexample :
    load_aovs_for_scene wrongTypedState "shot010.ma" = .loaded (.str "not-a-list") ∧
    isCorrupt (load_aovs_for_scene wrongTypedState "shot010.ma") = false ∧
    isEmptySelection (.str "not-a-list") = false :=
  ⟨rfl, rfl, rfl⟩

/-- State whose AOV file for `shot010` holds `{"aovs": 42}` (unsized). -/
def unsizedState : ModelState :=
  { render_exe_path := "", render_exe_exists := false
    project_path := some ["P"]
    fs := ⟨[(["P", "render", "json", "shot010.json"],
             .json (.obj [("aovs", .num 42)]))]⟩ }

/-- C4 (amended): a present file that is malformed JSON, parses to a
non-object document, or holds an unsized `"aovs"` value (number, boolean,
null — `len()` in the success log raises inside the `try`) yields an empty
selection with the distinct corrupt-file error; an absent file yields an
empty selection without that error; a parseable object lacking the `"aovs"`
key yields an empty selection without an error, and a sized `"aovs"` value
(string, list, dict) is passed through unvalidated without an error. -/
theorem c4_load_error_classification (st : ModelState) (proj : PathT)
    (scene_filename : String)
    (hp : st.project_path = some proj) (hs : scene_filename ≠ "") :
    (st.fs.get (aovJsonPath proj scene_filename) = none →
      load_aovs_for_scene st scene_filename = .absent) ∧
    (∀ s, st.fs.get (aovJsonPath proj scene_filename) = some (.raw s) →
      load_aovs_for_scene st scene_filename = .corrupt) ∧
    (∀ v, st.fs.get (aovJsonPath proj scene_filename) = some (.json v) →
      isObj v = false →
      load_aovs_for_scene st scene_filename = .corrupt) ∧
    (∀ fields, st.fs.get (aovJsonPath proj scene_filename)
        = some (.json (.obj fields)) →
      hasLen ((fields.lookup "aovs").getD (.arr [])) = true →
      load_aovs_for_scene st scene_filename
        = .loaded ((fields.lookup "aovs").getD (.arr []))) ∧
    (∀ fields, st.fs.get (aovJsonPath proj scene_filename)
        = some (.json (.obj fields)) →
      hasLen ((fields.lookup "aovs").getD (.arr [])) = false →
      load_aovs_for_scene st scene_filename = .corrupt) ∧
    LoadOutcome.absent ≠ LoadOutcome.corrupt := by
  obtain ⟨exe, exex, pp, fs⟩ := st
  simp only [ModelState.project_path] at hp
  subst hp
  simp only [ModelState.fs]
  refine ⟨?_, ?_, ?_, ?_, ?_, by intro h; cases h⟩
  · intro h
    simp [load_aovs_for_scene, hs, h]
  · intro s h
    simp [load_aovs_for_scene, hs, h]
  · intro v h hobj
    cases v <;> simp_all [load_aovs_for_scene, hs, isObj]
  · intro fields h hlen
    simp [load_aovs_for_scene, hs, h, hlen]
  · intro fields h hlen
    simp [load_aovs_for_scene, hs, h, hlen]

/-- Witness for C4's amended classification at concrete states: absent file,
sized wrong-typed value passed through, unsized value reported corrupt. -/
theorem c4_witness :
    load_aovs_for_scene noExeState "shot010.ma" = .absent ∧
    load_aovs_for_scene wrongTypedState "shot010.ma"
      = .loaded ((([("aovs", JVal.str "not-a-list")]).lookup "aovs").getD (.arr [])) ∧
    load_aovs_for_scene unsizedState "shot010.ma" = .corrupt :=
  ⟨(c4_load_error_classification noExeState ["P"] "shot010.ma" rfl (by decide)).1 rfl,
   (c4_load_error_classification wrongTypedState ["P"] "shot010.ma" rfl
      (by decide)).2.2.2.1 [("aovs", .str "not-a-list")] rfl rfl,
   (c4_load_error_classification unsizedState ["P"] "shot010.ma" rfl
      (by decide)).2.2.2.2.1 [("aovs", .num 42)] rfl rfl⟩

/-- State whose AOV file for `sceneA` holds a previously saved selection. -/
def prevSavedState : ModelState :=
  { render_exe_path := "", render_exe_exists := false
    project_path := some ["P"]
    fs := ⟨[(["P", "render", "json", "sceneA.json"], .json (aovDoc ["beauty"]))]⟩ }

/-- Counterexample to C5: an I/O failure right after `open(json_path, 'w')`
truncates the previously stored document to the empty file — the previous
contents do not remain intact. -/
theorem c5_counterexample :
    prevSavedState.fs.get (aovJsonPath ["P"] "sceneA.ma")
      = some (.json (aovDoc ["beauty"])) ∧
    (save_aovs_for_scene prevSavedState "sceneA.ma" ["x"] (.fail 0)).fs.get
        (aovJsonPath ["P"] "sceneA.ma")
      = some (.raw "") ∧
    Option.map isJsonDoc (prevSavedState.fs.get (aovJsonPath ["P"] "sceneA.ma"))
      = some true ∧
    Option.map isJsonDoc
        ((save_aovs_for_scene prevSavedState "sceneA.ma" ["x"] (.fail 0)).fs.get
          (aovJsonPath ["P"] "sceneA.ma"))
      = some false :=
  ⟨rfl, rfl, rfl, rfl⟩

/-- C5 (amended): the save operation truncates the scene's file in place, so
an I/O failure partway through the write leaves the file holding the prefix
of the new serialization written so far — not the previous contents, which
are lost; only the successful write leaves the complete document. -/
theorem c5_save_truncates_in_place (st : ModelState) (proj : PathT)
    (scene_filename : String) (S : List String) (n : Nat) (prev : JVal)
    (hp : st.project_path = some proj) (hs : scene_filename ≠ "")
    (hn : n < (dumpsAovDoc S).length)
    (hprev : st.fs.get (aovJsonPath proj scene_filename) = some (.json prev)) :
    (save_aovs_for_scene st scene_filename S (.fail n)).fs.get
        (aovJsonPath proj scene_filename)
      = some (.raw ((dumpsAovDoc S).take n)) ∧
    (save_aovs_for_scene st scene_filename S (.fail n)).fs.get
        (aovJsonPath proj scene_filename)
      ≠ some (.json prev) ∧
    (save_aovs_for_scene st scene_filename S .ok).fs.get
        (aovJsonPath proj scene_filename)
      = some (.json (aovDoc S)) := by
  obtain ⟨exe, exex, pp, fs⟩ := st
  simp only [ModelState.project_path] at hp
  subst hp
  refine ⟨?_, ?_, ?_⟩
  · simp [save_aovs_for_scene, hs, hn, FS.get_set_same]
  · simp [save_aovs_for_scene, hs, hn, FS.get_set_same]
  · simp [save_aovs_for_scene, hs, FS.get_set_same]

/-- Witness for C5's amended behaviour at a concrete failing write. -/
theorem c5_witness :
    (save_aovs_for_scene prevSavedState "sceneA.ma" ["x"] (.fail 3)).fs.get
        (aovJsonPath ["P"] "sceneA.ma")
      = some (.raw ((dumpsAovDoc ["x"]).take 3)) ∧
    (save_aovs_for_scene prevSavedState "sceneA.ma" ["x"] (.fail 3)).fs.get
        (aovJsonPath ["P"] "sceneA.ma")
      ≠ some (.json (aovDoc ["beauty"])) :=
  ⟨(c5_save_truncates_in_place prevSavedState ["P"] "sceneA.ma" ["x"] 3
      (aovDoc ["beauty"]) rfl (by decide) (by decide) rfl).1,
   (c5_save_truncates_in_place prevSavedState ["P"] "sceneA.ma" ["x"] 3
      (aovDoc ["beauty"]) rfl (by decide) (by decide) rfl).2.1⟩

/-- Characters with equal code points are equal. -/
theorem char_eq_of_toNat_eq {a b : Char} (h : a.toNat = b.toNat) : a = b :=
  Char.ext (UInt32.ext h)

/-- The ordinal order on character lists is total. -/
theorem lexLe_total : ∀ x y : List Char, lexLe x y = true ∨ lexLe y x = true := by
  intro x
  induction x with
  | nil => intro y; left; rfl
  | cons a as ih =>
    intro y
    cases y with
    | nil => right; rfl
    | cons b bs =>
      by_cases hab : a = b
      · subst hab
        rcases ih bs with h | h
        · left; simp [lexLe, h]
        · right; simp [lexLe, h]
      · have hne : a.toNat ≠ b.toNat := fun h => hab (char_eq_of_toNat_eq h)
        rcases Nat.lt_or_ge a.toNat b.toNat with h | h
        · left; simp [lexLe, hab, h]
        · have hba : b.toNat < a.toNat := lt_of_le_of_ne h (fun hh => hne hh.symm)
          right; simp [lexLe, Ne.symm hab, hba]

/-- The ordinal order on character lists is transitive. -/
theorem lexLe_trans : ∀ x y z : List Char,
    lexLe x y = true → lexLe y z = true → lexLe x z = true := by
  intro x
  induction x with
  | nil => intro y z _ _; rfl
  | cons a as ih =>
    intro y z hxy hyz
    cases y with
    | nil => cases hxy
    | cons b bs =>
      cases z with
      | nil => cases hyz
      | cons c cs =>
        by_cases hab : a = b <;> by_cases hbc : b = c
        · subst hab; subst hbc
          simp only [lexLe, if_pos rfl] at hxy hyz ⊢
          exact ih bs cs hxy hyz
        · subst hab
          simp only [lexLe, if_neg hbc, decide_eq_true_eq] at hyz ⊢
          exact hyz
        · subst hbc
          simp only [lexLe, if_neg hab, decide_eq_true_eq] at hxy ⊢
          exact hxy
        · simp only [lexLe, if_neg hab, if_neg hbc, decide_eq_true_eq] at hxy hyz
          have hac : a ≠ c := by
            intro h
            subst h
            omega
          simp only [lexLe, if_neg hac, decide_eq_true_eq]
          omega

/-- C6: the configured-scene listing keeps exactly the `*.json` names and
returns them sorted ascending in case-sensitive ordinal (code-point) order;
on the spec's example it returns exactly `["A.json", "a.json", "b.json"]`. -/
theorem c6_listing_sorted (listing : List String) :
    (updateAovJsonFiles listing).Pairwise (fun a b => strLe a b = true) ∧
    (updateAovJsonFiles listing).Perm
      (listing.filter (fun f => endsWithStr ".json" f)) ∧
    updateAovJsonFiles ["b.json", "A.json", "a.json"]
      = ["A.json", "a.json", "b.json"] := by
  haveI htot : IsTotal String (fun a b => strLe a b = true) :=
    ⟨fun a b => lexLe_total a.data b.data⟩
  haveI htrans : IsTrans String (fun a b => strLe a b = true) :=
    ⟨fun a b c => lexLe_trans a.data b.data c.data⟩
  refine ⟨?_, List.perm_insertionSort _ _, by decide⟩
  exact List.sorted_insertionSort _ _

/-- The reflection-depth flag never coincides with a quoted argument. -/
theorem ne_td_q (s : String) : "-ai:td" ≠ q s := by
  unfold q
  exact ne_append_of_take "\"" _ _ (by decide)

/-- The refraction-depth flag never coincides with a quoted argument. -/
theorem ne_rfr_q (s : String) : "-ai:rfr" ≠ q s := by
  unfold q
  exact ne_append_of_take "\"" _ _ (by decide)

/-- The reflection-depth flag never coincides with a rendered integer. -/
theorem ne_td_intStr (i : Int) : "-ai:td" ≠ intStr i :=
  ne_intStr_of_alpha _ i ⟨'a', by decide, by decide, by decide⟩

/-- The refraction-depth flag never coincides with a rendered integer. -/
theorem ne_rfr_intStr (i : Int) : "-ai:rfr" ≠ intStr i :=
  ne_intStr_of_alpha _ i ⟨'a', by decide, by decide, by decide⟩

/-- State with a renderer and project for the depth-flag counterexample. -/
def overrideState : ModelState :=
  { render_exe_path := "C:/maya/Render.exe", render_exe_exists := true
    project_path := some ["P"], fs := ⟨[]⟩ }

/-- GUI settings with the ray-tracing override switched on. -/
def overrideSettings : RenderSettings :=
  { ray_tracing := some true, reflection := some 8, refraction := some 8 }

/-- Counterexample to C7: the GUI compiler, invoked with the ray-tracing
override on, produces a script with zero occurrences of the reflection and
refraction depth flags — the override appends nothing there. -/
theorem c7_counterexample :
    overrideSettings.ray_tracing = some true ∧
    (Except.toOption (create_batch_file overrideState overrideSettings "shot.ma")).map
        (fun r => r.2.all (fun l => !hasSub "-ai:td" l && !hasSub "-ai:rfr" l))
      = some true := ⟨rfl, by decide⟩

/-- C7 (amended): in the standalone generator the ray-tracing boolean gates
both depth flags — both appear exactly when it is true — while the GUI
compiler's output is entirely independent of the override and of the depth
values, so there the override gates nothing. -/
theorem c7_depth_flags (rs : StandaloneSettings)
    (proj outdir scenePath aovPath stem : String) (aovExists : Bool)
    (mi : Option Nat)
    (hf1 : rs.format ≠ "-ai:td") (hf2 : rs.format ≠ "-ai:rfr") :
    ("-ai:td" ∈ standaloneArgs rs proj outdir scenePath aovPath stem aovExists mi
      ↔ rs.ray_tracing = true) ∧
    ("-ai:rfr" ∈ standaloneArgs rs proj outdir scenePath aovPath stem aovExists mi
      ↔ rs.ray_tracing = true) ∧
    (∀ (st : ModelState) (settings : RenderSettings) (scene : String)
        (x : Option Bool) (b c : Option Int),
      create_batch_file st
          { settings with ray_tracing := x, reflection := b, refraction := c } scene
        = create_batch_file st settings scene) := by
  have hf1' : "-ai:td" ≠ rs.format := fun h => hf1 h.symm
  have hf2' : "-ai:rfr" ≠ rs.format := fun h => hf2 h.symm
  refine ⟨?_, ?_, fun st settings scene x b c => rfl⟩ <;>
    cases hrt : rs.ray_tracing <;> cases hae : aovExists <;>
      cases hmb : rs.motion_blur <;>
      simp [standaloneArgs, hrt, hae, hmb, hf1', hf2',
        ne_td_q, ne_rfr_q, ne_td_intStr, ne_rfr_intStr]

/-- The `RENDER_SETTINGS` literal of `create_batch_file.py`. -/
def renderSettingsFixture : StandaloneSettings :=
  { start_frame := 1, end_frame := 5, width := 1920, height := 1080
    format := "exr", image_name_prefix := "shot_010"
    cam_aa := 3, diffuse := 2, specular := 2, transmission := 2, sss := 2
    motion_blur := false, ray_tracing := true
    reflection_depth := 8, refraction_depth := 8 }

/-- Witness for C7's amended claim on the source's own settings literal. -/
theorem c7_witness :
    "-ai:td" ∈ standaloneArgs renderSettingsFixture "C:\\proj"
        "C:\\proj\\render\\shot" "C:\\proj\\render\\shot.ma"
        "C:\\proj\\render\\json\\shot.json" "shot" true (some 0) ∧
    "-ai:rfr" ∈ standaloneArgs renderSettingsFixture "C:\\proj"
        "C:\\proj\\render\\shot" "C:\\proj\\render\\shot.ma"
        "C:\\proj\\render\\json\\shot.json" "shot" true (some 0) := by
  have h := c7_depth_flags renderSettingsFixture "C:\\proj"
    "C:\\proj\\render\\shot" "C:\\proj\\render\\shot.ma"
    "C:\\proj\\render\\json\\shot.json" "shot" true (some 0)
    (by decide) (by decide)
  exact ⟨h.1.mpr rfl, h.2.1.mpr rfl⟩

/-- C8: for every scene name — separators included — the AOV store resolves
its file to a single separator-free segment directly inside
`<project>/render/json`, so no file outside that directory is touched; on a
traversal-shaped name like `..\..\evil\x.ma` the resolved path is still
`<project>/render/json/x.json`. -/
theorem c8_aov_path_confined (proj : PathT) (scene : String) :
    (∀ c ∈ (pyStem scene ++ ".json").data, isSep c = false) ∧
    aovJsonPath proj scene = proj ++ ["render", "json", pyStem scene ++ ".json"] ∧
    aovJsonPath ["P"] "..\\..\\evil\\x.ma" = ["P", "render", "json", "x.json"] := by
  refine ⟨?_, rfl, by decide⟩
  intro c hc
  rw [String.data_append] at hc
  rcases List.mem_append.mp hc with h | h
  · exact pyStemChars_sepFree scene.data c h
  · fin_cases h <;> decide

/-- Counterexample to C9: compilation is not side-effect-free — the compiler
itself writes the generated batch file into the project directory. -/
theorem c9_counterexample :
    exampleState.fs.get (batPath ["C:", "proj"] "shot010.ma") = none ∧
    (Except.toOption (create_batch_file exampleState {} "shot010.ma")).map
        (fun r => (r.1.fs.get (batPath ["C:", "proj"] "shot010.ma")).isSome)
      = some true := ⟨rfl, by decide⟩

/-- C9 (amended): successful compilation leaves the renderer path, the
project path and every file other than `<project>/render_<stem>.bat`
unchanged, but the compiler itself writes the generated script to that one
path — the single mutation it performs. -/
theorem c9_compile_effect_single_write (st : ModelState)
    (settings : RenderSettings) (scene_file : String) (proj : PathT)
    (st' : ModelState) (lines : List String)
    (hexe : st.render_exe_path ≠ "") (hx : st.render_exe_exists = true)
    (hp : st.project_path = some proj)
    (hok : create_batch_file st settings scene_file = .ok (st', lines)) :
    st'.render_exe_path = st.render_exe_path ∧
    st'.render_exe_exists = st.render_exe_exists ∧
    st'.project_path = st.project_path ∧
    (∀ p2, p2 ≠ batPath proj scene_file → st'.fs.get p2 = st.fs.get p2) ∧
    (st'.fs.get (batPath proj scene_file)).isSome = true := by
  unfold create_batch_file at hok
  rw [if_neg (by simp [hexe, hx]), hp] at hok
  simp only [Except.ok.injEq, Prod.mk.injEq] at hok
  obtain ⟨h1, h2⟩ := hok
  subst h1
  refine ⟨rfl, rfl, hp.symm, ?_, ?_⟩
  · intro p2 hne
    exact FS.get_set_ne st.fs _ p2 _ hne
  · rw [FS.get_set_same]
    rfl

/-- Witness for C9's amended claim at a concrete compilation. -/
theorem c9_witness :
    ∃ st' lines, create_batch_file exampleState {} "shot010.ma" = .ok (st', lines) ∧
      (st'.fs.get (batPath ["C:", "proj"] "shot010.ma")).isSome = true := by
  refine ⟨_, _, rfl, ?_⟩
  exact (c9_compile_effect_single_write exampleState {} "shot010.ma" ["C:", "proj"]
    _ _ (by decide) rfl rfl rfl).2.2.2.2

/-- C10: with every settings key absent, compilation still succeeds and the
script carries the fixed defaults — frames 1/1, 1280x720, camera
`perspShape`, camera-AA 3 and all four sampling counts 2 — while an absent
or empty file-name falls back to the scene stem. -/
theorem c10_settings_defaults (st : ModelState) (scene_file : String)
    (proj : PathT)
    (hexe : st.render_exe_path ≠ "") (hx : st.render_exe_exists = true)
    (hp : st.project_path = some proj) :
    ∃ st' lines,
      create_batch_file st {} scene_file = .ok (st', lines) ∧
      lines = templateLines st.render_exe_path (winJoin proj) scene_file {}
        (aovOutcome false ((st.fs.get (aovJsonPath proj scene_file)).isSome)) ∧
      midLines (pyStem scene_file) {} =
        [ "",
          "rem 出力設定",
          "SET OUTPUT_PATH=\"" ++ ("render\\" ++ pyStem scene_file ++ "\""),
          "SET FILENAME=\"" ++ (pyStem scene_file ++ "\""),
          "",
          "rem レンダリング詳細設定",
          "SET RENDERER_ENGINE=arnold",
          "SET START_FRAME=1",
          "SET END_FRAME=1",
          "SET RESOLUTION_X=1280",
          "SET RESOLUTION_Y=720",
          "SET CAMERA=\"perspShape\"",
          "",
          "",
          sepLine,
          ":: --- ▼ レンダリングコマンド本体 ---",
          sepLine,
          "",
          "echo Starting Maya Batch Render...",
          "echo Project: %PROJECT_PATH%",
          "echo Scene:   %SCENE_FILE%",
          echoSepLine,
          "",
          "%MAYA_RENDERER% ^",
          "    -r %RENDERER_ENGINE% ^",
          "    -proj %PROJECT_PATH% ^",
          "    -s %START_FRAME% -e %END_FRAME% ^",
          "    -x %RESOLUTION_X% -y %RESOLUTION_Y% ^",
          "    -cam %CAMERA% ^",
          "    -rd \"%PROJECT_PATH%\\%OUTPUT_PATH%\" ^",
          "    -im \"%FILENAME%\" ^",
          "    -ai:as 3 ^",
          "    -ai:hs 2 ^",
          "    -ai:gs 2 ^",
          "    -ai:rs 2 ^",
          "    -ai:bssrdfs 2 ^" ] ∧
      resolvedFileName none (pyStem scene_file) = pyStem scene_file ∧
      resolvedFileName (some "") (pyStem scene_file) = pyStem scene_file := by
  unfold create_batch_file
  rw [if_neg (by simp [hexe, hx]), hp]
  exact ⟨_, _, rfl, rfl, rfl, rfl, rfl⟩

/-- Witness for C10: concrete default-filled compilation. -/
theorem c10_witness :
    ∃ st' lines,
      create_batch_file exampleState {} "shot010.ma" = .ok (st', lines) ∧
      "SET START_FRAME=1" ∈ lines ∧ "SET RESOLUTION_X=1280" ∈ lines ∧
      "SET CAMERA=\"perspShape\"" ∈ lines := by
  obtain ⟨st', lines, h1, h2, h3, h4, h5⟩ :=
    c10_settings_defaults exampleState "shot010.ma" ["C:", "proj"]
      (by decide) rfl rfl
  refine ⟨st', lines, h1, ?_, ?_, ?_⟩ <;> rw [h2] <;> decide

example : pyStem "shot010.ma" = "shot010" := by decide
example : pyStem "a/b.ma" = "b" := by decide
example : pyStem "a\\b.ma" = "b" := by decide
example : pyStem ".." = ".." := by decide
example : pyStem "." = "" := by decide
example : pyStem "" = "" := by decide
example : pyStem "a/b/" = "b" := by decide
example : pyStem "a//b.ma" = "b" := by decide
example : pyStem "./x.ma" = "x" := by decide
example : pyStem ".hidden" = ".hidden" := by decide
example : pyStem "foo." = "foo." := by decide
example : pyStem "foo.tar.gz" = "foo.tar" := by decide
example : pyStem "x" = "x" := by decide
example : intStr 0 = "0" := by decide
example : intStr 1234 = "1234" := by decide
example : intStr (-56) = "-56" := by decide
example : dumpsAovDoc ["a", "b"] = "\x7b\n    \"aovs\": [\n        \"a\",\n        \"b\"\n    ]\n\x7d" := by decide
example : dumpsAovDoc [] = "\x7b\n    \"aovs\": []\n\x7d" := by decide
example : hasSub "-rsa" "    -rsa \"x\"" = true := by decide
example : hasSub "-rsa" "rem nothing here" = false := by decide
example : endsWithStr ".json" "a.json" = true := by decide
example : endsWithStr ".json" "a.jsonx" = false := by decide
example : pad3 1 = "001" := by decide
example : versionSuffix (some 0) = "v001" := by decide

end MayaBatch
